import Mathlib

/-!
Shallow embedding of `src/app/models.py` (edu-mail-builder): an email-template
authoring data model (courses, templates, content blocks, AI generations,
media assets, layout presets) together with the CRUD boundary operations the
spec describes for it.  Persistent models become Lean structures; the
non-persistent Create/Update shapes become structures whose `Option` fields
model the absence of a field in the input payload (pydantic applies the
declared default when a field is absent).  Timestamps are modelled as `Nat`
(an abstract clock value supplied by the caller), JSON documents as an
inductive `Json`, and Python `Decimal` as an exact scaled integer.
-/

/-- JSON values, modelling the `Dict[str, Any]` JSON-typed columns. -/
inductive Json where
  | null : Json
  | bool : Bool → Json
  | num : Int → Json
  | str : String → Json
  | arr : List Json → Json
  | obj : List (String × Json) → Json

/-- JSON object (the top-level shape of every `Dict[str, Any]` column). -/
def JsonObj : Type := List (String × Json)

/-- Python `Decimal`, modelled exactly: the value is `mantissa / 10 ^ scale`.
`Decimal("0.7")` is `⟨7, 1⟩`.  No binary floating point is involved. -/
structure Decimal where
  mantissa : Int
  scale : Nat
deriving DecidableEq, Repr

/-- Exact rational value of a `Decimal`. -/
def Decimal.toRat (d : Decimal) : ℚ := (d.mantissa : ℚ) / (10 : ℚ) ^ d.scale

/-- Enum `TemplateType` from `models.py` lines 9-15. -/
inductive TemplateType where
  | COURSE_REMINDER
  | COURSE_STARTS_TODAY
  | COURSE_WELCOME
  | COURSE_COMPLETION
  | ASSIGNMENT_DUE
  | GRADE_NOTIFICATION
deriving DecidableEq, Repr

/-- Enum `EmailStatus` from `models.py` lines 18-21. -/
inductive EmailStatus where
  | DRAFT
  | PUBLISHED
  | ARCHIVED
deriving DecidableEq, Repr

/-- Enum `ContentBlockType` from `models.py` lines 24-30. -/
inductive ContentBlockType where
  | TEXT
  | IMAGE
  | BUTTON
  | DIVIDER
  | SPACER
  | AI_GENERATED
deriving DecidableEq, Repr

/-- String values of `TemplateType` members (the closed set of the enum). -/
def templateTypeStrings : List String :=
  ["course_reminder", "course_starts_today", "course_welcome",
   "course_completion", "assignment_due", "grade_notification"]

/-- String values of `EmailStatus` members. -/
def emailStatusStrings : List String := ["draft", "published", "archived"]

/-- String values of `ContentBlockType` members. -/
def contentBlockTypeStrings : List String :=
  ["text", "image", "button", "divider", "spacer", "ai_generated"]

/-- Parse a raw string into a `TemplateType`; `none` when the string is not a
member of the closed enum set (pydantic enum validation). -/
def TemplateType.ofString (s : String) : Option TemplateType :=
  if s = "course_reminder" then some .COURSE_REMINDER
  else if s = "course_starts_today" then some .COURSE_STARTS_TODAY
  else if s = "course_welcome" then some .COURSE_WELCOME
  else if s = "course_completion" then some .COURSE_COMPLETION
  else if s = "assignment_due" then some .ASSIGNMENT_DUE
  else if s = "grade_notification" then some .GRADE_NOTIFICATION
  else none

/-- Parse a raw string into an `EmailStatus`; `none` outside the enum set. -/
def EmailStatus.ofString (s : String) : Option EmailStatus :=
  if s = "draft" then some .DRAFT
  else if s = "published" then some .PUBLISHED
  else if s = "archived" then some .ARCHIVED
  else none

/-- Parse a raw string into a `ContentBlockType`; `none` outside the enum set. -/
def ContentBlockType.ofString (s : String) : Option ContentBlockType :=
  if s = "text" then some .TEXT
  else if s = "image" then some .IMAGE
  else if s = "button" then some .BUTTON
  else if s = "divider" then some .DIVIDER
  else if s = "spacer" then some .SPACER
  else if s = "ai_generated" then some .AI_GENERATED
  else none

/-- Persistent model `Course` (`models.py` lines 34-48).  `id` is assigned by
the store at insert time; timestamps are abstract clock values. -/
structure Course where
  id : Nat
  name : String
  description : String
  instructor : String
  start_date : Option Nat
  end_date : Option Nat
  created_at : Nat
deriving DecidableEq, Repr

/-- Persistent model `EmailTemplate` (`models.py` lines 51-80). -/
structure EmailTemplate where
  id : Nat
  name : String
  description : String
  template_type : TemplateType
  status : EmailStatus
  subject_line : String
  preview_text : String
  layout_config : JsonObj
  course_id : Option Nat
  created_at : Nat
  updated_at : Nat
  published_at : Option Nat

/-- Persistent model `ContentBlock` (`models.py` lines 83-111). -/
structure ContentBlock where
  id : Nat
  template_id : Nat
  block_type : ContentBlockType
  order_index : Int
  content : JsonObj
  style_config : JsonObj
  ai_generated : Bool
  ai_generation_id : Option Nat
  created_at : Nat
  updated_at : Nat

/-- Persistent model `AIGeneration` (`models.py` lines 114-139). -/
structure AIGeneration where
  id : Nat
  template_id : Nat
  prompt : String
  model_used : String
  temperature : Decimal
  generated_content : JsonObj
  success : Bool
  error_message : Option String
  created_at : Nat

/-- Persistent model `MediaAsset` (`models.py` lines 142-163). -/
structure MediaAsset where
  id : Nat
  filename : String
  original_filename : String
  file_path : String
  file_size : Int
  mime_type : String
  width : Option Int
  height : Option Int
  alt_text : String
  usage_count : Int
  created_at : Nat
deriving DecidableEq, Repr

/-- Persistent model `LayoutPreset` (`models.py` lines 166-186). -/
structure LayoutPreset where
  id : Nat
  name : String
  description : String
  layout_config : JsonObj
  template_type : Option TemplateType
  is_default : Bool
  usage_count : Int
  created_at : Nat

/-- Error kinds of the validation/storage boundary (spec section 7). -/
inductive Err where
  | ValidationError
  | IntegrityError
deriving DecidableEq, Repr

/-- Create shape `CourseCreate` (`models.py` lines 190-196).  `Option` on a
defaulted field models its absence from the input payload. -/
structure CourseCreate where
  name : String
  description : Option String
  instructor : String
  start_date : Option Nat
  end_date : Option Nat

/-- Update shape `CourseUpdate` (`models.py` lines 198-203): every field
optional; `none` models the field being absent from the update payload. -/
structure CourseUpdate where
  name : Option String
  description : Option String
  instructor : Option String
  start_date : Option Nat
  end_date : Option Nat

/-- Create shape `EmailTemplateCreate` (`models.py` lines 206-213). -/
structure EmailTemplateCreate where
  name : String
  description : Option String
  template_type : Option TemplateType
  subject_line : String
  preview_text : Option String
  layout_config : Option JsonObj
  course_id : Option Nat

/-- Update shape `EmailTemplateUpdate` (`models.py` lines 216-224). -/
structure EmailTemplateUpdate where
  name : Option String
  description : Option String
  template_type : Option TemplateType
  status : Option EmailStatus
  subject_line : Option String
  preview_text : Option String
  layout_config : Option JsonObj
  course_id : Option Nat

/-- Create shape `ContentBlockCreate` (`models.py` lines 227-232). -/
structure ContentBlockCreate where
  template_id : Nat
  block_type : Option ContentBlockType
  order_index : Option Int
  content : Option JsonObj
  style_config : Option JsonObj

/-- Update shape `ContentBlockUpdate` (`models.py` lines 235-239): exposes
only `block_type`, `order_index`, `content` and `style_config`. -/
structure ContentBlockUpdate where
  block_type : Option ContentBlockType
  order_index : Option Int
  content : Option JsonObj
  style_config : Option JsonObj

/-- Request shape `AIGenerationRequest` (`models.py` lines 242-247). -/
structure AIGenerationRequest where
  template_id : Nat
  prompt : String
  model_used : Option String
  temperature : Option Decimal
  content_type : Option ContentBlockType

/-- Create shape `MediaAssetCreate` (`models.py` lines 250-258). -/
structure MediaAssetCreate where
  filename : String
  original_filename : String
  file_path : String
  file_size : Option Int
  mime_type : String
  width : Option Int
  height : Option Int
  alt_text : Option String

/-- Create shape `LayoutPresetCreate` (`models.py` lines 261-266). -/
structure LayoutPresetCreate where
  name : String
  description : Option String
  layout_config : Option JsonObj
  template_type : Option TemplateType
  is_default : Option Bool

/-- Raw (pre-validation) payload for `EmailTemplateCreate`: the enum field
arrives as a string, which pydantic must check against the closed set. -/
structure EmailTemplateCreateRaw where
  name : String
  description : Option String
  template_type : Option String
  subject_line : String
  preview_text : Option String
  layout_config : Option JsonObj
  course_id : Option Nat

/-- Raw (pre-validation) payload for `EmailTemplateUpdate`. -/
structure EmailTemplateUpdateRaw where
  name : Option String
  description : Option String
  template_type : Option String
  status : Option String
  subject_line : Option String
  preview_text : Option String
  layout_config : Option JsonObj
  course_id : Option Nat

/-- Raw (pre-validation) payload for `ContentBlockCreate`. -/
structure ContentBlockCreateRaw where
  template_id : Nat
  block_type : Option String
  order_index : Option Int
  content : Option JsonObj
  style_config : Option JsonObj

/-- Raw (pre-validation) payload for `ContentBlockUpdate`. -/
structure ContentBlockUpdateRaw where
  block_type : Option String
  order_index : Option Int
  content : Option JsonObj
  style_config : Option JsonObj

/-- Raw (pre-validation) payload for `LayoutPresetCreate`: its optional
`template_type` enum field also arrives as a string. -/
structure LayoutPresetCreateRaw where
  name : String
  description : Option String
  layout_config : Option JsonObj
  template_type : Option String
  is_default : Option Bool

/-- Validate an optional raw enum string against a closed enum set: absent is
accepted (the default applies); a present string outside the set is a
`ValidationError`. -/
def parseEnumField {α : Type} (ofStr : String → Option α) :
    Option String → Except Err (Option α)
  | none => .ok none
  | some s =>
    match ofStr s with
    | some v => .ok (some v)
    | none => .error .ValidationError

/-- Enum validation of a raw `EmailTemplateCreate` payload (pydantic checks
`template_type` against `TemplateType` before the value reaches storage). -/
def parseEmailTemplateCreate (r : EmailTemplateCreateRaw) :
    Except Err EmailTemplateCreate :=
  match parseEnumField TemplateType.ofString r.template_type with
  | .error e => .error e
  | .ok tt =>
    .ok ⟨r.name, r.description, tt, r.subject_line, r.preview_text,
         r.layout_config, r.course_id⟩

/-- Enum validation of a raw `EmailTemplateUpdate` payload. -/
def parseEmailTemplateUpdate (r : EmailTemplateUpdateRaw) :
    Except Err EmailTemplateUpdate :=
  match parseEnumField TemplateType.ofString r.template_type with
  | .error e => .error e
  | .ok tt =>
    match parseEnumField EmailStatus.ofString r.status with
    | .error e => .error e
    | .ok st =>
      .ok ⟨r.name, r.description, tt, st, r.subject_line, r.preview_text,
           r.layout_config, r.course_id⟩

/-- Enum validation of a raw `ContentBlockCreate` payload. -/
def parseContentBlockCreate (r : ContentBlockCreateRaw) :
    Except Err ContentBlockCreate :=
  match parseEnumField ContentBlockType.ofString r.block_type with
  | .error e => .error e
  | .ok bt => .ok ⟨r.template_id, bt, r.order_index, r.content, r.style_config⟩

/-- Enum validation of a raw `ContentBlockUpdate` payload. -/
def parseContentBlockUpdate (r : ContentBlockUpdateRaw) :
    Except Err ContentBlockUpdate :=
  match parseEnumField ContentBlockType.ofString r.block_type with
  | .error e => .error e
  | .ok bt => .ok ⟨bt, r.order_index, r.content, r.style_config⟩

/-- Enum validation of a raw `LayoutPresetCreate` payload (pydantic checks
the optional `template_type` against `TemplateType`, `models.py` line 265). -/
def parseLayoutPresetCreate (r : LayoutPresetCreateRaw) :
    Except Err LayoutPresetCreate :=
  match parseEnumField TemplateType.ofString r.template_type with
  | .error e => .error e
  | .ok tt => .ok ⟨r.name, r.description, r.layout_config, tt, r.is_default⟩

/-- Backing store: one table per persistent model plus the autoincrement
counter each table's integer primary key draws from. -/
structure DB where
  courses : List Course
  email_templates : List EmailTemplate
  content_blocks : List ContentBlock
  ai_generations : List AIGeneration
  media_assets : List MediaAsset
  layout_presets : List LayoutPreset
  next_course_id : Nat
  next_template_id : Nat
  next_block_id : Nat
  next_generation_id : Nat
  next_asset_id : Nat
  next_preset_id : Nat

/-- The store with no records. -/
def emptyDB : DB := ⟨[], [], [], [], [], [], 1, 1, 1, 1, 1, 1⟩

/-- Well-formedness of the store: every stored id was drawn from its table's
autoincrement counter, hence is below the counter's next value. -/
def wfDB (db : DB) : Bool :=
  db.courses.all (fun c => c.id < db.next_course_id) &&
  db.email_templates.all (fun t => t.id < db.next_template_id) &&
  db.content_blocks.all (fun b => b.id < db.next_block_id) &&
  db.ai_generations.all (fun g => g.id < db.next_generation_id) &&
  db.media_assets.all (fun a => a.id < db.next_asset_id) &&
  db.layout_presets.all (fun p => p.id < db.next_preset_id)

/-- Read a `Course` by primary key. -/
def readCourse (db : DB) (id : Nat) : Option Course :=
  db.courses.find? (fun c => c.id == id)

/-- Read an `EmailTemplate` by primary key. -/
def readEmailTemplate (db : DB) (id : Nat) : Option EmailTemplate :=
  db.email_templates.find? (fun t => t.id == id)

/-- Read a `ContentBlock` by primary key. -/
def readContentBlock (db : DB) (id : Nat) : Option ContentBlock :=
  db.content_blocks.find? (fun b => b.id == id)

/-- Read an `AIGeneration` by primary key. -/
def readAIGeneration (db : DB) (id : Nat) : Option AIGeneration :=
  db.ai_generations.find? (fun g => g.id == id)

/-- Read a `MediaAsset` by primary key. -/
def readMediaAsset (db : DB) (id : Nat) : Option MediaAsset :=
  db.media_assets.find? (fun a => a.id == id)

/-- Read a `LayoutPreset` by primary key. -/
def readLayoutPreset (db : DB) (id : Nat) : Option LayoutPreset :=
  db.layout_presets.find? (fun p => p.id == id)

/-- Foreign-key check for `courses.id`. -/
def courseExists (db : DB) (cid : Nat) : Bool := (readCourse db cid).isSome

/-- Foreign-key check for `email_templates.id`. -/
def templateExists (db : DB) (tid : Nat) : Bool := (readEmailTemplate db tid).isSome

/-- Length validation of a `CourseCreate` payload, from the `max_length`
declarations of `models.py` lines 190-196 (name 200, description 1000,
instructor 100); values are rejected, never truncated. -/
def validCourseCreate (i : CourseCreate) : Bool :=
  i.name.length ≤ 200 && (i.description.getD "").length ≤ 1000 &&
  i.instructor.length ≤ 100

/-- Length validation of an `EmailTemplateCreate` payload (`models.py` lines
206-213: name 200, description 500, subject_line 200, preview_text 150). -/
def validEmailTemplateCreate (i : EmailTemplateCreate) : Bool :=
  i.name.length ≤ 200 && (i.description.getD "").length ≤ 500 &&
  i.subject_line.length ≤ 200 && (i.preview_text.getD "").length ≤ 150

/-- Length validation of an `AIGenerationRequest` payload (`models.py` lines
242-247: prompt 1000, model_used 50). -/
def validAIGenerationRequest (i : AIGenerationRequest) : Bool :=
  i.prompt.length ≤ 1000 && (i.model_used.getD "gpt-3.5-turbo").length ≤ 50

/-- Length validation of a `MediaAssetCreate` payload (`models.py` lines
250-258: filename 255, original_filename 255, file_path 500, mime_type 100,
alt_text 200). -/
def validMediaAssetCreate (i : MediaAssetCreate) : Bool :=
  i.filename.length ≤ 255 && i.original_filename.length ≤ 255 &&
  i.file_path.length ≤ 500 && i.mime_type.length ≤ 100 &&
  (i.alt_text.getD "").length ≤ 200

/-- Length validation of a `LayoutPresetCreate` payload (`models.py` lines
261-266: name 100, description 300). -/
def validLayoutPresetCreate (i : LayoutPresetCreate) : Bool :=
  i.name.length ≤ 100 && (i.description.getD "").length ≤ 300

/-- Length validation of a `CourseUpdate` payload: present fields obey the
same `max_length` caps as on create. -/
def validCourseUpdate (u : CourseUpdate) : Bool :=
  (u.name.getD "").length ≤ 200 && (u.description.getD "").length ≤ 1000 &&
  (u.instructor.getD "").length ≤ 100

/-- Length validation of an `EmailTemplateUpdate` payload. -/
def validEmailTemplateUpdate (u : EmailTemplateUpdate) : Bool :=
  (u.name.getD "").length ≤ 200 && (u.description.getD "").length ≤ 500 &&
  (u.subject_line.getD "").length ≤ 200 && (u.preview_text.getD "").length ≤ 150

/-- The `Course` row a valid `CourseCreate` payload inserts: declared defaults
fill the absent fields, the store assigns `id` and `created_at`. -/
def mkCourse (id : Nat) (i : CourseCreate) (now : Nat) : Course :=
  { id := id, name := i.name, description := i.description.getD "",
    instructor := i.instructor, start_date := i.start_date,
    end_date := i.end_date, created_at := now }

/-- The `EmailTemplate` row a valid `EmailTemplateCreate` payload inserts.
`status` and `published_at` are not part of the create shape, so they take
the table defaults `DRAFT` and null (`models.py` lines 60, 75). -/
def mkEmailTemplate (id : Nat) (i : EmailTemplateCreate) (now : Nat) : EmailTemplate :=
  { id := id, name := i.name, description := i.description.getD "",
    template_type := i.template_type.getD .COURSE_REMINDER,
    status := .DRAFT, subject_line := i.subject_line,
    preview_text := i.preview_text.getD "",
    layout_config := i.layout_config.getD [],
    course_id := i.course_id, created_at := now, updated_at := now,
    published_at := none }

/-- The `ContentBlock` row a valid `ContentBlockCreate` payload inserts.
`ai_generated` and `ai_generation_id` are not part of the create shape, so
they take the table defaults `false` and null (`models.py` lines 102-103). -/
def mkContentBlock (id : Nat) (i : ContentBlockCreate) (now : Nat) : ContentBlock :=
  { id := id, template_id := i.template_id,
    block_type := i.block_type.getD .TEXT,
    order_index := i.order_index.getD 0,
    content := i.content.getD [], style_config := i.style_config.getD [],
    ai_generated := false, ai_generation_id := none,
    created_at := now, updated_at := now }

/-- The `AIGeneration` row a valid `AIGenerationRequest` inserts.  The request
carries only the call parameters; `generated_content`, `success` and
`error_message` take the table defaults `{}`, `True` and null
(`models.py` lines 128, 131-132). -/
def mkAIGeneration (id : Nat) (i : AIGenerationRequest) (now : Nat) : AIGeneration :=
  { id := id, template_id := i.template_id, prompt := i.prompt,
    model_used := i.model_used.getD "gpt-3.5-turbo",
    temperature := i.temperature.getD ⟨7, 1⟩,
    generated_content := [], success := true, error_message := none,
    created_at := now }

/-- The `MediaAsset` row a valid `MediaAssetCreate` payload inserts. -/
def mkMediaAsset (id : Nat) (i : MediaAssetCreate) (now : Nat) : MediaAsset :=
  { id := id, filename := i.filename,
    original_filename := i.original_filename, file_path := i.file_path,
    file_size := i.file_size.getD 0, mime_type := i.mime_type,
    width := i.width, height := i.height,
    alt_text := i.alt_text.getD "", usage_count := 0, created_at := now }

/-- The `LayoutPreset` row a valid `LayoutPresetCreate` payload inserts. -/
def mkLayoutPreset (id : Nat) (i : LayoutPresetCreate) (now : Nat) : LayoutPreset :=
  { id := id, name := i.name, description := i.description.getD "",
    layout_config := i.layout_config.getD [],
    template_type := i.template_type,
    is_default := i.is_default.getD false, usage_count := 0,
    created_at := now }

/-- Modelled from the spec: the Create operation of the out-of-scope CRUD
layer for `Course`.  Field constraints are enforced at the boundary before
any value reaches storage (spec 4.1); on success the store assigns the next
autoincrement id and appends the row in one transactional unit (spec 5). -/
def createCourse (db : DB) (i : CourseCreate) (now : Nat) : Except Err DB :=
  if validCourseCreate i then
    .ok { db with
          courses := db.courses ++ [mkCourse db.next_course_id i now],
          next_course_id := db.next_course_id + 1 }
  else .error .ValidationError

/-- Foreign-key admissibility of an `EmailTemplateCreate` payload: an absent
`course_id` is fine, a present one must reference an existing `Course`. -/
def fkOkEmailTemplate (db : DB) (i : EmailTemplateCreate) : Bool :=
  match i.course_id with
  | some cid => courseExists db cid
  | none => true

/-- Modelled from the spec: the Create operation of the out-of-scope CRUD
layer for `EmailTemplate`.  Validation precedes storage; a present
`course_id` that references no existing `Course` is a storage-layer
`IntegrityError` (spec 7). -/
def createEmailTemplate (db : DB) (i : EmailTemplateCreate) (now : Nat) :
    Except Err DB :=
  if validEmailTemplateCreate i then
    if fkOkEmailTemplate db i then
      .ok { db with
            email_templates :=
              db.email_templates ++ [mkEmailTemplate db.next_template_id i now],
            next_template_id := db.next_template_id + 1 }
    else .error .IntegrityError
  else .error .ValidationError

/-- Modelled from the spec: the Create operation of the out-of-scope CRUD
layer for `ContentBlock`.  `template_id` is a required foreign key; a
dangling value is an `IntegrityError` (spec 8, last example). -/
def createContentBlock (db : DB) (i : ContentBlockCreate) (now : Nat) :
    Except Err DB :=
  if templateExists db i.template_id then
    .ok { db with
          content_blocks :=
            db.content_blocks ++ [mkContentBlock db.next_block_id i now],
          next_block_id := db.next_block_id + 1 }
  else .error .IntegrityError

/-- Modelled from the spec: recording an AI generation (the model only
persists the request parameters and defaults for the outcome; the AI call
itself is an external collaborator, spec 6). -/
def createAIGeneration (db : DB) (i : AIGenerationRequest) (now : Nat) :
    Except Err DB :=
  if validAIGenerationRequest i then
    if templateExists db i.template_id then
      .ok { db with
            ai_generations :=
              db.ai_generations ++ [mkAIGeneration db.next_generation_id i now],
            next_generation_id := db.next_generation_id + 1 }
    else .error .IntegrityError
  else .error .ValidationError

/-- Modelled from the spec: the Create operation of the out-of-scope CRUD
layer for `MediaAsset` (a standalone record with no foreign keys). -/
def createMediaAsset (db : DB) (i : MediaAssetCreate) (now : Nat) :
    Except Err DB :=
  if validMediaAssetCreate i then
    .ok { db with
          media_assets := db.media_assets ++ [mkMediaAsset db.next_asset_id i now],
          next_asset_id := db.next_asset_id + 1 }
  else .error .ValidationError

/-- Modelled from the spec: the Create operation of the out-of-scope CRUD
layer for `LayoutPreset` (a standalone record with no foreign keys). -/
def createLayoutPreset (db : DB) (i : LayoutPresetCreate) (now : Nat) :
    Except Err DB :=
  if validLayoutPresetCreate i then
    .ok { db with
          layout_presets :=
            db.layout_presets ++ [mkLayoutPreset db.next_preset_id i now],
          next_preset_id := db.next_preset_id + 1 }
  else .error .ValidationError

/-- Modelled from the spec: deleting an `EmailTemplate` cascades, in the same
transactional unit, to every `ContentBlock` and `AIGeneration` whose
`template_id` references it (`cascade_delete=True` on `models.py` lines
79-80; spec sections 3 and 5). -/
def deleteEmailTemplate (db : DB) (tid : Nat) : DB :=
  { db with
    email_templates := db.email_templates.filter (fun t => t.id ≠ tid),
    content_blocks := db.content_blocks.filter (fun b => b.template_id ≠ tid),
    ai_generations := db.ai_generations.filter (fun g => g.template_id ≠ tid) }

/-- Overwrite a required column from an update payload: a present value
replaces the stored one, an absent field is "no change". -/
def updField {α : Type} (new : Option α) (old : α) : α := new.getD old

/-- Overwrite a nullable column from an update payload: a present value
replaces the stored one, an absent field is "no change". -/
def updOptField {α : Type} : Option α → Option α → Option α
  | some v, _ => some v
  | none, old => old

/-- Modelled from the spec: applying a `CourseUpdate` to a stored `Course` —
only present fields overwrite existing values (spec section 3, Lifecycle). -/
def applyCourseUpdate (c : Course) (u : CourseUpdate) : Course :=
  { c with
    name := updField u.name c.name,
    description := updField u.description c.description,
    instructor := updField u.instructor c.instructor,
    start_date := updOptField u.start_date c.start_date,
    end_date := updOptField u.end_date c.end_date }

/-- Modelled from the spec: applying an `EmailTemplateUpdate` to a stored
`EmailTemplate`; JSON-typed `layout_config` is replaced wholesale, never
deep-merged (spec section 3, Lifecycle). -/
def applyEmailTemplateUpdate (t : EmailTemplate) (u : EmailTemplateUpdate) :
    EmailTemplate :=
  { t with
    name := updField u.name t.name,
    description := updField u.description t.description,
    template_type := updField u.template_type t.template_type,
    status := updField u.status t.status,
    subject_line := updField u.subject_line t.subject_line,
    preview_text := updField u.preview_text t.preview_text,
    layout_config := updField u.layout_config t.layout_config,
    course_id := updOptField u.course_id t.course_id }

/-- Modelled from the spec: applying a `ContentBlockUpdate` to a stored
`ContentBlock`; the update shape exposes only `block_type`, `order_index`,
`content` and `style_config`, and the JSON columns are replaced wholesale. -/
def applyContentBlockUpdate (b : ContentBlock) (u : ContentBlockUpdate) :
    ContentBlock :=
  { b with
    block_type := updField u.block_type b.block_type,
    order_index := updField u.order_index b.order_index,
    content := updField u.content b.content,
    style_config := updField u.style_config b.style_config }

/-- Create an `EmailTemplate` row then immediately read it back under the id
the store assigned; `none` when creation failed. -/
def createThenReadEmailTemplate (db : DB) (i : EmailTemplateCreate) (now : Nat) :
    Option EmailTemplate :=
  match createEmailTemplate db i now with
  | .ok db2 => readEmailTemplate db2 db.next_template_id
  | .error _ => none

/-- Create a `Course` row then immediately read it back. -/
def createThenReadCourse (db : DB) (i : CourseCreate) (now : Nat) : Option Course :=
  match createCourse db i now with
  | .ok db2 => readCourse db2 db.next_course_id
  | .error _ => none

/-- Create a `ContentBlock` row then immediately read it back. -/
def createThenReadContentBlock (db : DB) (i : ContentBlockCreate) (now : Nat) :
    Option ContentBlock :=
  match createContentBlock db i now with
  | .ok db2 => readContentBlock db2 db.next_block_id
  | .error _ => none

/-- Create an `AIGeneration` row then immediately read it back. -/
def createThenReadAIGeneration (db : DB) (i : AIGenerationRequest) (now : Nat) :
    Option AIGeneration :=
  match createAIGeneration db i now with
  | .ok db2 => readAIGeneration db2 db.next_generation_id
  | .error _ => none

/-- Create a `MediaAsset` row then immediately read it back. -/
def createThenReadMediaAsset (db : DB) (i : MediaAssetCreate) (now : Nat) :
    Option MediaAsset :=
  match createMediaAsset db i now with
  | .ok db2 => readMediaAsset db2 db.next_asset_id
  | .error _ => none

/-- Create a `LayoutPreset` row then immediately read it back. -/
def createThenReadLayoutPreset (db : DB) (i : LayoutPresetCreate) (now : Nat) :
    Option LayoutPreset :=
  match createLayoutPreset db i now with
  | .ok db2 => readLayoutPreset db2 db.next_preset_id
  | .error _ => none

/-- Validate the enum field of a raw `EmailTemplateCreate` payload and, when
it passes, run the Create operation (the full boundary pipeline). -/
def createEmailTemplateRaw (db : DB) (r : EmailTemplateCreateRaw) (now : Nat) :
    Except Err DB :=
  match parseEmailTemplateCreate r with
  | .error e => .error e
  | .ok i => createEmailTemplate db i now

/-- Run the full raw boundary pipeline for `EmailTemplate` and read the new
row back; `none` when validation or creation failed. -/
def createThenReadEmailTemplateRaw (db : DB) (r : EmailTemplateCreateRaw)
    (now : Nat) : Option EmailTemplate :=
  match parseEmailTemplateCreate r with
  | .ok i => createThenReadEmailTemplate db i now
  | .error _ => none

/-- Validate the enum field of a raw `ContentBlockCreate` payload and, when
it passes, run the Create operation. -/
def createContentBlockRaw (db : DB) (r : ContentBlockCreateRaw) (now : Nat) :
    Except Err DB :=
  match parseContentBlockCreate r with
  | .error e => .error e
  | .ok i => createContentBlock db i now

/-- Sample stored template used by concrete instantiations. -/
def tplA : EmailTemplate :=
  { id := 1, name := "Welcome", description := "",
    template_type := .COURSE_WELCOME, status := .DRAFT,
    subject_line := "Hi", preview_text := "", layout_config := [],
    course_id := none, created_at := 0, updated_at := 0,
    published_at := none }

/-- Second sample stored template. -/
def tplB : EmailTemplate := { tplA with id := 2 }

/-- Sample stored content block with the given id and template. -/
def sampleBlock (id tid : Nat) : ContentBlock :=
  { id := id, template_id := tid, block_type := .TEXT, order_index := 0,
    content := [], style_config := [], ai_generated := false,
    ai_generation_id := none, created_at := 0, updated_at := 0 }

/-- Sample stored AI generation with the given id and template. -/
def sampleGen (id tid : Nat) : AIGeneration :=
  { id := id, template_id := tid, prompt := "p", model_used := "m",
    temperature := ⟨7, 1⟩, generated_content := [], success := true,
    error_message := none, created_at := 0 }

/-- Sample store: two templates; template 1 has two content blocks and one
AI generation, template 2 has one content block. -/
def dbSample : DB :=
  { courses := [], email_templates := [tplA, tplB],
    content_blocks := [sampleBlock 1 1, sampleBlock 2 1, sampleBlock 3 2],
    ai_generations := [sampleGen 1 1], media_assets := [],
    layout_presets := [], next_course_id := 1, next_template_id := 3,
    next_block_id := 4, next_generation_id := 2, next_asset_id := 1,
    next_preset_id := 1 }

/-- String of `n` copies of the letter a, for length-cap instantiations. -/
def longStr (n : Nat) : String := String.mk (List.replicate n 'a')

/-- Sample stored course used by concrete instantiations. -/
def courseA : Course :=
  { id := 1, name := "Algebra", description := "", instructor := "N",
    start_date := none, end_date := none, created_at := 0 }

/-- The `CourseUpdate` payload with every field absent. -/
def noUpdCourse : CourseUpdate := ⟨none, none, none, none, none⟩

/-- The `EmailTemplateUpdate` payload with every field absent. -/
def noUpdTemplate : EmailTemplateUpdate :=
  ⟨none, none, none, none, none, none, none, none⟩

/-- The `ContentBlockUpdate` payload with every field absent. -/
def noUpdBlock : ContentBlockUpdate := ⟨none, none, none, none⟩

/-- Sample JSON document used by concrete instantiations. -/
def vSample : JsonObj := [("cols", Json.num 2)]

/-- Scanning past a prefix in which the predicate never holds. -/
theorem find_skip_front {α : Type} {l₁ : List α} {p : α → Bool}
    (h : ∀ x ∈ l₁, p x = false) (l₂ : List α) :
    (l₁ ++ l₂).find? p = l₂.find? p := by
  induction l₁ with
  | nil => simp
  | cons a t ih =>
    have ha : p a = false := h a (List.mem_cons_self a t)
    simp only [List.cons_append, List.find?, ha]
    exact ih fun x hx => h x (List.mem_cons_of_mem a hx)

/-- Reading a freshly appended row back by its id: every earlier row's id is
below the autoincrement counter, so the lookup lands on the new row. -/
theorem readback {α : Type} (l : List α) (idOf : α → Nat) (n : Nat) (a : α)
    (hl : ∀ x ∈ l, idOf x < n) (ha : idOf a = n) :
    (l ++ [a]).find? (fun x => idOf x == n) = some a := by
  rw [find_skip_front]
  · simp [List.find?, ha]
  · intro x hx
    simp only [beq_eq_false_iff_ne]
    exact Nat.ne_of_lt (hl x hx)

/-- Filtering out the elements satisfying a decidable predicate shortens a
list by exactly the count of those elements. -/
theorem length_filter_not_add_countP {α : Type} (l : List α) (q : α → Prop)
    [DecidablePred q] :
    (l.filter fun x => ¬ q x).length + (l.countP fun x => q x) = l.length := by
  induction l with
  | nil => simp
  | cons a t ih =>
    simp only [List.filter_cons, List.countP_cons, List.length_cons,
      decide_not] at ih ⊢
    by_cases hqa : q a
    · simp only [decide_eq_true hqa, Bool.not_true, Bool.false_eq_true,
        if_false, if_true]
      omega
    · simp only [decide_eq_false hqa, Bool.not_false, Bool.false_eq_true,
        if_false, if_true, List.length_cons]
      omega

/-- C1: deleting an `EmailTemplate` removes, in the same operation, exactly
its `ContentBlock` and `AIGeneration` children — afterwards no child row
references the deleted template, the surviving rows are precisely those that
did not reference it, and the child tables shrank by exactly the numbers N
and M of children the template had. -/
theorem C1_delete_email_template_cascades (db : DB) (tid : Nat) :
    (∀ b ∈ (deleteEmailTemplate db tid).content_blocks, b.template_id ≠ tid) ∧
    (∀ g ∈ (deleteEmailTemplate db tid).ai_generations, g.template_id ≠ tid) ∧
    (deleteEmailTemplate db tid).content_blocks
      = db.content_blocks.filter (fun b => b.template_id ≠ tid) ∧
    (deleteEmailTemplate db tid).ai_generations
      = db.ai_generations.filter (fun g => g.template_id ≠ tid) ∧
    (deleteEmailTemplate db tid).content_blocks.length
        + (db.content_blocks.countP fun b => b.template_id = tid)
      = db.content_blocks.length ∧
    (deleteEmailTemplate db tid).ai_generations.length
        + (db.ai_generations.countP fun g => g.template_id = tid)
      = db.ai_generations.length := by
  refine ⟨?_, ?_, rfl, rfl, ?_, ?_⟩
  · intro b hb
    simp only [deleteEmailTemplate, List.mem_filter, decide_eq_true_eq] at hb
    exact hb.2
  · intro g hg
    simp only [deleteEmailTemplate, List.mem_filter, decide_eq_true_eq] at hg
    exact hg.2
  · exact length_filter_not_add_countP db.content_blocks (fun b => b.template_id = tid)
  · exact length_filter_not_add_countP db.ai_generations (fun g => g.template_id = tid)

/-- Concrete instantiation of the cascade-delete theorem: deleting template 1
of `dbSample` leaves exactly the children that referenced template 2, and
shrinks the child tables by N = 2 and M = 1. -/
theorem C1_delete_email_template_cascades_witness :
    (deleteEmailTemplate dbSample 1).content_blocks
        = dbSample.content_blocks.filter (fun b => b.template_id ≠ 1) ∧
    (deleteEmailTemplate dbSample 1).ai_generations
        = dbSample.ai_generations.filter (fun g => g.template_id ≠ 1) ∧
    (deleteEmailTemplate dbSample 1).content_blocks.length
        + (dbSample.content_blocks.countP fun b => b.template_id = 1)
      = dbSample.content_blocks.length ∧
    (deleteEmailTemplate dbSample 1).ai_generations.length
        + (dbSample.ai_generations.countP fun g => g.template_id = 1)
      = dbSample.ai_generations.length := by
  have h := C1_delete_email_template_cascades dbSample 1
  exact ⟨h.2.2.1, h.2.2.2.1, h.2.2.2.2.1, h.2.2.2.2.2⟩

/-- Length of `longStr`. -/
theorem longStr_length (n : Nat) : (longStr n).length = n := by
  simp [longStr, String.length]

/-- C2: a Create payload whose string field exceeds the field's declared
`max_length` (Course.name over 200, EmailTemplate.description over 500,
MediaAsset.file_path over 500) is rejected with a `ValidationError`; the
operation yields no new store state, so nothing is persisted and the
overlong value is never truncated into a stored row. -/
theorem C2_overlong_strings_rejected (db : DB) (now : Nat)
    (ci : CourseCreate) (hc : 200 < ci.name.length)
    (ei : EmailTemplateCreate) (he : 500 < (ei.description.getD "").length)
    (mi : MediaAssetCreate) (hm : 500 < mi.file_path.length) :
    createCourse db ci now = .error .ValidationError ∧
    createEmailTemplate db ei now = .error .ValidationError ∧
    createMediaAsset db mi now = .error .ValidationError := by
  refine ⟨?_, ?_, ?_⟩
  · simp [createCourse, validCourseCreate, Nat.not_le.mpr hc]
  · simp [createEmailTemplate, validEmailTemplateCreate, Nat.not_le.mpr he]
  · simp [createMediaAsset, validMediaAssetCreate, Nat.not_le.mpr hm]

/-- Concrete instantiation of the length-validation theorem: a 201-character
course name, a 501-character template description and a 501-character media
file path are each rejected and persist nothing. -/
theorem C2_overlong_strings_rejected_witness :
    createCourse emptyDB ⟨longStr 201, none, "prof", none, none⟩ 0
      = .error .ValidationError ∧
    createEmailTemplate emptyDB
        ⟨"n", some (longStr 501), none, "s", none, none, none⟩ 0
      = .error .ValidationError ∧
    createMediaAsset emptyDB
        ⟨"f", "g", longStr 501, none, "image/png", none, none, none⟩ 0
      = .error .ValidationError := by
  exact C2_overlong_strings_rejected emptyDB 0
    ⟨longStr 201, none, "prof", none, none⟩ (by simp [longStr_length])
    ⟨"n", some (longStr 501), none, "s", none, none, none⟩ (by simp [longStr_length])
    ⟨"f", "g", longStr 501, none, "image/png", none, none, none⟩ (by simp [longStr_length])

/-- Well-formedness projection for the courses table. -/
theorem wfDB_courses {db : DB} (h : wfDB db = true) :
    ∀ c ∈ db.courses, c.id < db.next_course_id := by
  simp only [wfDB, Bool.and_eq_true, List.all_eq_true, decide_eq_true_eq] at h
  exact h.1.1.1.1.1

/-- Well-formedness projection for the email_templates table. -/
theorem wfDB_templates {db : DB} (h : wfDB db = true) :
    ∀ t ∈ db.email_templates, t.id < db.next_template_id := by
  simp only [wfDB, Bool.and_eq_true, List.all_eq_true, decide_eq_true_eq] at h
  exact h.1.1.1.1.2

/-- Well-formedness projection for the content_blocks table. -/
theorem wfDB_blocks {db : DB} (h : wfDB db = true) :
    ∀ b ∈ db.content_blocks, b.id < db.next_block_id := by
  simp only [wfDB, Bool.and_eq_true, List.all_eq_true, decide_eq_true_eq] at h
  exact h.1.1.1.2

/-- Well-formedness projection for the ai_generations table. -/
theorem wfDB_generations {db : DB} (h : wfDB db = true) :
    ∀ g ∈ db.ai_generations, g.id < db.next_generation_id := by
  simp only [wfDB, Bool.and_eq_true, List.all_eq_true, decide_eq_true_eq] at h
  exact h.1.1.2

/-- Well-formedness projection for the media_assets table. -/
theorem wfDB_assets {db : DB} (h : wfDB db = true) :
    ∀ a ∈ db.media_assets, a.id < db.next_asset_id := by
  simp only [wfDB, Bool.and_eq_true, List.all_eq_true, decide_eq_true_eq] at h
  exact h.1.2

/-- Well-formedness projection for the layout_presets table. -/
theorem wfDB_presets {db : DB} (h : wfDB db = true) :
    ∀ p ∈ db.layout_presets, p.id < db.next_preset_id := by
  simp only [wfDB, Bool.and_eq_true, List.all_eq_true, decide_eq_true_eq] at h
  exact h.2

/-- Roundtrip for `Course`: a valid create inserts exactly the defaulted row
and reading the assigned id back returns it. -/
theorem createCourse_roundtrip (db : DB) (i : CourseCreate) (now : Nat)
    (hwf : wfDB db = true) (hv : validCourseCreate i = true) :
    createThenReadCourse db i now = some (mkCourse db.next_course_id i now) := by
  simp only [createThenReadCourse, createCourse, hv, if_true, readCourse]
  exact readback db.courses Course.id db.next_course_id _ (wfDB_courses hwf) rfl

/-- Roundtrip for `EmailTemplate`. -/
theorem createEmailTemplate_roundtrip (db : DB) (i : EmailTemplateCreate)
    (now : Nat) (hwf : wfDB db = true)
    (hv : validEmailTemplateCreate i = true)
    (hfk : fkOkEmailTemplate db i = true) :
    createThenReadEmailTemplate db i now
      = some (mkEmailTemplate db.next_template_id i now) := by
  simp only [createThenReadEmailTemplate, createEmailTemplate, hv, hfk,
    if_true, readEmailTemplate]
  exact readback db.email_templates EmailTemplate.id db.next_template_id _
    (wfDB_templates hwf) rfl

/-- Roundtrip for `ContentBlock`. -/
theorem createContentBlock_roundtrip (db : DB) (i : ContentBlockCreate)
    (now : Nat) (hwf : wfDB db = true)
    (hfk : templateExists db i.template_id = true) :
    createThenReadContentBlock db i now
      = some (mkContentBlock db.next_block_id i now) := by
  simp only [createThenReadContentBlock, createContentBlock, hfk, if_true,
    readContentBlock]
  exact readback db.content_blocks ContentBlock.id db.next_block_id _
    (wfDB_blocks hwf) rfl

/-- Roundtrip for `AIGeneration`. -/
theorem createAIGeneration_roundtrip (db : DB) (i : AIGenerationRequest)
    (now : Nat) (hwf : wfDB db = true)
    (hv : validAIGenerationRequest i = true)
    (hfk : templateExists db i.template_id = true) :
    createThenReadAIGeneration db i now
      = some (mkAIGeneration db.next_generation_id i now) := by
  simp only [createThenReadAIGeneration, createAIGeneration, hv, hfk, if_true,
    readAIGeneration]
  exact readback db.ai_generations AIGeneration.id db.next_generation_id _
    (wfDB_generations hwf) rfl

/-- Roundtrip for `MediaAsset`. -/
theorem createMediaAsset_roundtrip (db : DB) (i : MediaAssetCreate)
    (now : Nat) (hwf : wfDB db = true) (hv : validMediaAssetCreate i = true) :
    createThenReadMediaAsset db i now
      = some (mkMediaAsset db.next_asset_id i now) := by
  simp only [createThenReadMediaAsset, createMediaAsset, hv, if_true,
    readMediaAsset]
  exact readback db.media_assets MediaAsset.id db.next_asset_id _
    (wfDB_assets hwf) rfl

/-- Roundtrip for `LayoutPreset`. -/
theorem createLayoutPreset_roundtrip (db : DB) (i : LayoutPresetCreate)
    (now : Nat) (hwf : wfDB db = true) (hv : validLayoutPresetCreate i = true) :
    createThenReadLayoutPreset db i now
      = some (mkLayoutPreset db.next_preset_id i now) := by
  simp only [createThenReadLayoutPreset, createLayoutPreset, hv, if_true,
    readLayoutPreset]
  exact readback db.layout_presets LayoutPreset.id db.next_preset_id _
    (wfDB_presets hwf) rfl

/-- C3: every field absent from an update payload leaves the corresponding
stored value unchanged — for each field of `CourseUpdate`,
`EmailTemplateUpdate` and `ContentBlockUpdate`, a `none` in the payload means
the stored field keeps its value, never a reset to a default. -/
theorem C3_update_absent_fields_unchanged
    (c : Course) (cu : CourseUpdate)
    (t : EmailTemplate) (tu : EmailTemplateUpdate)
    (b : ContentBlock) (bu : ContentBlockUpdate) :
    (cu.name = none → (applyCourseUpdate c cu).name = c.name) ∧
    (cu.description = none →
      (applyCourseUpdate c cu).description = c.description) ∧
    (cu.instructor = none →
      (applyCourseUpdate c cu).instructor = c.instructor) ∧
    (cu.start_date = none →
      (applyCourseUpdate c cu).start_date = c.start_date) ∧
    (cu.end_date = none → (applyCourseUpdate c cu).end_date = c.end_date) ∧
    (tu.name = none → (applyEmailTemplateUpdate t tu).name = t.name) ∧
    (tu.description = none →
      (applyEmailTemplateUpdate t tu).description = t.description) ∧
    (tu.template_type = none →
      (applyEmailTemplateUpdate t tu).template_type = t.template_type) ∧
    (tu.status = none → (applyEmailTemplateUpdate t tu).status = t.status) ∧
    (tu.subject_line = none →
      (applyEmailTemplateUpdate t tu).subject_line = t.subject_line) ∧
    (tu.preview_text = none →
      (applyEmailTemplateUpdate t tu).preview_text = t.preview_text) ∧
    (tu.layout_config = none →
      (applyEmailTemplateUpdate t tu).layout_config = t.layout_config) ∧
    (tu.course_id = none →
      (applyEmailTemplateUpdate t tu).course_id = t.course_id) ∧
    (bu.block_type = none →
      (applyContentBlockUpdate b bu).block_type = b.block_type) ∧
    (bu.order_index = none →
      (applyContentBlockUpdate b bu).order_index = b.order_index) ∧
    (bu.content = none → (applyContentBlockUpdate b bu).content = b.content) ∧
    (bu.style_config = none →
      (applyContentBlockUpdate b bu).style_config = b.style_config) := by
  refine ⟨?_, ?_, ?_, ?_, ?_, ?_, ?_, ?_, ?_, ?_, ?_, ?_, ?_, ?_, ?_, ?_, ?_⟩ <;>
    (intro h;
     simp [applyCourseUpdate, applyEmailTemplateUpdate,
       applyContentBlockUpdate, updField, updOptField, h])

/-- Concrete instantiation of the update-frame theorem: the all-absent update
payloads change nothing on sample rows. -/
theorem C3_update_absent_fields_unchanged_witness :
    (applyCourseUpdate courseA noUpdCourse).name = courseA.name ∧
    (applyEmailTemplateUpdate tplA noUpdTemplate).name = tplA.name ∧
    (applyContentBlockUpdate (sampleBlock 1 1) noUpdBlock).block_type
      = (sampleBlock 1 1).block_type := by
  have h := C3_update_absent_fields_unchanged courseA noUpdCourse tplA
    noUpdTemplate (sampleBlock 1 1) noUpdBlock
  exact ⟨h.1 rfl, h.2.2.2.2.2.1 rfl,
    h.2.2.2.2.2.2.2.2.2.2.2.2.2.1 rfl⟩

/-- C6: an update that supplies a JSON-typed column replaces the stored
document wholesale with the supplied value — `layout_config` on
`EmailTemplateUpdate`, `content` and `style_config` on `ContentBlockUpdate`
(no update shape exposes `generated_content`, so it can never be merged).
The result is exactly the supplied document, never a merge with the old. -/
theorem C6_json_columns_replaced_wholesale
    (t : EmailTemplate) (tu : EmailTemplateUpdate)
    (b : ContentBlock) (bu : ContentBlockUpdate) (v : JsonObj) :
    (tu.layout_config = some v →
      (applyEmailTemplateUpdate t tu).layout_config = v) ∧
    (bu.content = some v → (applyContentBlockUpdate b bu).content = v) ∧
    (bu.style_config = some v →
      (applyContentBlockUpdate b bu).style_config = v) := by
  refine ⟨?_, ?_, ?_⟩ <;>
    (intro h;
     simp [applyEmailTemplateUpdate, applyContentBlockUpdate, updField, h])

/-- Concrete instantiation of the wholesale-replacement theorem: supplying
the sample document replaces each JSON column with exactly that document. -/
theorem C6_json_columns_replaced_wholesale_witness :
    (applyEmailTemplateUpdate tplA
        ⟨none, none, none, none, none, none, some vSample, none⟩).layout_config
      = vSample ∧
    (applyContentBlockUpdate (sampleBlock 1 1)
        ⟨none, none, some vSample, some vSample⟩).content = vSample ∧
    (applyContentBlockUpdate (sampleBlock 1 1)
        ⟨none, none, some vSample, some vSample⟩).style_config = vSample := by
  have h := C6_json_columns_replaced_wholesale tplA
    ⟨none, none, none, none, none, none, some vSample, none⟩
    (sampleBlock 1 1) ⟨none, none, some vSample, some vSample⟩ vSample
  exact ⟨h.1 rfl, h.2.1 rfl, h.2.2 rfl⟩

/-- C9: a `ContentBlockUpdate` can never move a block to another template or
alter its AI-generation tracking: `template_id`, `ai_generated` and
`ai_generation_id` are not part of the update shape and are unchanged by
every update. -/
theorem C9_content_block_update_preserves_template
    (b : ContentBlock) (u : ContentBlockUpdate) :
    (applyContentBlockUpdate b u).template_id = b.template_id ∧
    (applyContentBlockUpdate b u).ai_generated = b.ai_generated ∧
    (applyContentBlockUpdate b u).ai_generation_id = b.ai_generation_id :=
  ⟨rfl, rfl, rfl⟩

/-- A string outside the closed `TemplateType` set never parses. -/
theorem templateType_ofString_eq_none {s : String}
    (h : s ∉ templateTypeStrings) : TemplateType.ofString s = none := by
  simp only [templateTypeStrings, List.mem_cons, List.not_mem_nil,
    or_false] at h
  push_neg at h
  obtain ⟨h1, h2, h3, h4, h5, h6⟩ := h
  simp [TemplateType.ofString, h1, h2, h3, h4, h5, h6]

/-- A string outside the closed `EmailStatus` set never parses. -/
theorem emailStatus_ofString_eq_none {s : String}
    (h : s ∉ emailStatusStrings) : EmailStatus.ofString s = none := by
  simp only [emailStatusStrings, List.mem_cons, List.not_mem_nil,
    or_false] at h
  push_neg at h
  obtain ⟨h1, h2, h3⟩ := h
  simp [EmailStatus.ofString, h1, h2, h3]

/-- A string outside the closed `ContentBlockType` set never parses. -/
theorem contentBlockType_ofString_eq_none {s : String}
    (h : s ∉ contentBlockTypeStrings) : ContentBlockType.ofString s = none := by
  simp only [contentBlockTypeStrings, List.mem_cons, List.not_mem_nil,
    or_false] at h
  push_neg at h
  obtain ⟨h1, h2, h3, h4, h5, h6⟩ := h
  simp [ContentBlockType.ofString, h1, h2, h3, h4, h5, h6]

/-- Enum-field validation only ever fails with a `ValidationError`. -/
theorem parseEnumField_error_eq {α : Type} (f : String → Option α)
    (o : Option String) (e : Err) (h : parseEnumField f o = .error e) :
    e = .ValidationError := by
  cases o with
  | none => simp [parseEnumField] at h
  | some s =>
    cases hf : f s with
    | some v => simp [parseEnumField, hf] at h
    | none =>
      simp only [parseEnumField, hf, Except.error.injEq] at h
      exact h.symm

/-- C4: a Create or Update payload whose enum-typed field carries a string
outside the enum's closed set is rejected with a validation error —
`template_type` on template create, template update and preset create,
`status` on template update, and `block_type` on block create and update. -/
theorem C4_enum_values_outside_set_rejected
    (rc : EmailTemplateCreateRaw) (s₁ : String)
    (h₁ : rc.template_type = some s₁) (hs₁ : s₁ ∉ templateTypeStrings)
    (ru : EmailTemplateUpdateRaw) (s₂ : String)
    (h₂ : ru.status = some s₂) (hs₂ : s₂ ∉ emailStatusStrings)
    (rb : ContentBlockCreateRaw) (s₃ : String)
    (h₃ : rb.block_type = some s₃) (hs₃ : s₃ ∉ contentBlockTypeStrings)
    (rbu : ContentBlockUpdateRaw) (s₄ : String)
    (h₄ : rbu.block_type = some s₄) (hs₄ : s₄ ∉ contentBlockTypeStrings)
    (ru₂ : EmailTemplateUpdateRaw) (s₅ : String)
    (h₅ : ru₂.template_type = some s₅) (hs₅ : s₅ ∉ templateTypeStrings)
    (rl : LayoutPresetCreateRaw) (s₆ : String)
    (h₆ : rl.template_type = some s₆) (hs₆ : s₆ ∉ templateTypeStrings) :
    parseEmailTemplateCreate rc = .error .ValidationError ∧
    parseEmailTemplateUpdate ru = .error .ValidationError ∧
    parseContentBlockCreate rb = .error .ValidationError ∧
    parseContentBlockUpdate rbu = .error .ValidationError ∧
    parseEmailTemplateUpdate ru₂ = .error .ValidationError ∧
    parseLayoutPresetCreate rl = .error .ValidationError := by
  refine ⟨?_, ?_, ?_, ?_, ?_, ?_⟩
  · simp [parseEmailTemplateCreate, parseEnumField, h₁,
      templateType_ofString_eq_none hs₁]
  · have hst : parseEnumField EmailStatus.ofString ru.status
        = .error .ValidationError := by
      simp [parseEnumField, h₂, emailStatus_ofString_eq_none hs₂]
    cases htt : parseEnumField TemplateType.ofString ru.template_type with
    | error e =>
      have he := parseEnumField_error_eq _ _ _ htt
      subst he
      simp [parseEmailTemplateUpdate, htt]
    | ok tt => simp [parseEmailTemplateUpdate, htt, hst]
  · simp [parseContentBlockCreate, parseEnumField, h₃,
      contentBlockType_ofString_eq_none hs₃]
  · simp [parseContentBlockUpdate, parseEnumField, h₄,
      contentBlockType_ofString_eq_none hs₄]
  · simp [parseEmailTemplateUpdate, parseEnumField, h₅,
      templateType_ofString_eq_none hs₅]
  · simp [parseLayoutPresetCreate, parseEnumField, h₆,
      templateType_ofString_eq_none hs₆]

/-- Concrete instantiation of the enum-rejection theorem: the string value
bogus is rejected wherever an enum field of a create or update payload
carries it — template_type on template create, template update and preset
create, status on template update, block_type on block create and update. -/
theorem C4_enum_values_outside_set_rejected_witness :
    parseEmailTemplateCreate ⟨"n", none, some "bogus", "s", none, none, none⟩
      = .error .ValidationError ∧
    parseEmailTemplateUpdate
        ⟨none, none, none, some "bogus", none, none, none, none⟩
      = .error .ValidationError ∧
    parseContentBlockCreate ⟨1, some "bogus", none, none, none⟩
      = .error .ValidationError ∧
    parseContentBlockUpdate ⟨some "bogus", none, none, none⟩
      = .error .ValidationError ∧
    parseEmailTemplateUpdate
        ⟨none, none, some "bogus", none, none, none, none, none⟩
      = .error .ValidationError ∧
    parseLayoutPresetCreate ⟨"P", none, none, some "bogus", none⟩
      = .error .ValidationError := by
  exact C4_enum_values_outside_set_rejected
    ⟨"n", none, some "bogus", "s", none, none, none⟩ "bogus" rfl (by decide)
    ⟨none, none, none, some "bogus", none, none, none, none⟩ "bogus" rfl
      (by decide)
    ⟨1, some "bogus", none, none, none⟩ "bogus" rfl (by decide)
    ⟨some "bogus", none, none, none⟩ "bogus" rfl (by decide)
    ⟨none, none, some "bogus", none, none, none, none, none⟩ "bogus" rfl
      (by decide)
    ⟨"P", none, none, some "bogus", none⟩ "bogus" rfl (by decide)

/-- C5: creating an `EmailTemplate` from a payload giving
template_type course_reminder, subject_line Reminder, and no course_id
succeeds (with any valid required name), and the stored row has `status`
defaulted to `DRAFT` and `layout_config` defaulted to the empty object. -/
theorem C5_create_reminder_template_defaults (db : DB) (now : Nat) (n : String)
    (hwf : wfDB db = true) (hn : n.length ≤ 200) :
    createThenReadEmailTemplateRaw db
        ⟨n, none, some "course_reminder", "Reminder", none, none, none⟩ now
      = some { id := db.next_template_id, name := n, description := "",
               template_type := .COURSE_REMINDER, status := .DRAFT,
               subject_line := "Reminder", preview_text := "",
               layout_config := [], course_id := none, created_at := now,
               updated_at := now, published_at := none } := by
  have hv : validEmailTemplateCreate
      ⟨n, none, some .COURSE_REMINDER, "Reminder", none, none, none⟩ = true := by
    simp only [validEmailTemplateCreate, Bool.and_eq_true, decide_eq_true_eq]
    exact ⟨⟨⟨hn, by decide⟩, by decide⟩, by decide⟩
  have h := createEmailTemplate_roundtrip db
    ⟨n, none, some .COURSE_REMINDER, "Reminder", none, none, none⟩ now hwf hv
    rfl
  simpa [createThenReadEmailTemplateRaw, parseEmailTemplateCreate,
    parseEnumField, TemplateType.ofString, mkEmailTemplate] using h

/-- Concrete instantiation of the template-creation example on the sample
store: the new row appears under the next assigned id with draft status and
an empty layout configuration. -/
theorem C5_create_reminder_template_defaults_witness :
    createThenReadEmailTemplateRaw dbSample
        ⟨"Fall reminder", none, some "course_reminder", "Reminder", none,
         none, none⟩ 0
      = some { id := 3, name := "Fall reminder", description := "",
               template_type := .COURSE_REMINDER, status := .DRAFT,
               subject_line := "Reminder", preview_text := "",
               layout_config := [], course_id := none, created_at := 0,
               updated_at := 0, published_at := none } := by
  exact C5_create_reminder_template_defaults dbSample 0 "Fall reminder"
    (by decide) (by decide)

/-- C7: `temperature` on a recorded `AIGeneration` is an exact scaled decimal,
stored as supplied with no drift — the stored value is precisely the request
value, or precisely `Decimal("0.7")` (whose exact rational value is 7/10)
when the request omits it. -/
theorem C7_temperature_exact_decimal (db : DB) (req : AIGenerationRequest)
    (now : Nat) (hwf : wfDB db = true)
    (hv : validAIGenerationRequest req = true)
    (hfk : templateExists db req.template_id = true) :
    (createThenReadAIGeneration db req now).map (fun g => g.temperature)
      = some (req.temperature.getD ⟨7, 1⟩) ∧
    Decimal.toRat ⟨7, 1⟩ = 7 / 10 := by
  constructor
  · rw [createAIGeneration_roundtrip db req now hwf hv hfk]
    rfl
  · norm_num [Decimal.toRat]

/-- Concrete instantiation of the temperature theorem: a supplied value of
0.15 is stored exactly, and an omitted value is stored exactly as 0.7. -/
theorem C7_temperature_exact_decimal_witness :
    (createThenReadAIGeneration dbSample
        ⟨1, "write intro", none, some ⟨15, 2⟩, none⟩ 0).map
        (fun g => g.temperature) = some ⟨15, 2⟩ ∧
    (createThenReadAIGeneration dbSample
        ⟨1, "write intro", none, none, none⟩ 0).map
        (fun g => g.temperature) = some ⟨7, 1⟩ ∧
    Decimal.toRat ⟨7, 1⟩ = 7 / 10 := by
  have h1 := C7_temperature_exact_decimal dbSample
    ⟨1, "write intro", none, some ⟨15, 2⟩, none⟩ 0 (by decide) (by decide)
    (by decide)
  have h2 := C7_temperature_exact_decimal dbSample
    ⟨1, "write intro", none, none, none⟩ 0 (by decide) (by decide) (by decide)
  exact ⟨h1.1, h2.1, h2.2⟩

/-- C8: for every entity, creating from a valid payload and reading the new
row back yields exactly the payload's fields with the declared defaults
filled in for the absent ones (`mkCourse` through `mkLayoutPreset` are the
defaulted images of the payloads). -/
theorem C8_create_then_read_roundtrip (db : DB) (now : Nat)
    (hwf : wfDB db = true)
    (ci : CourseCreate) (hc : validCourseCreate ci = true)
    (ti : EmailTemplateCreate) (ht : validEmailTemplateCreate ti = true)
    (htf : fkOkEmailTemplate db ti = true)
    (bi : ContentBlockCreate) (hbf : templateExists db bi.template_id = true)
    (ai : AIGenerationRequest) (ha : validAIGenerationRequest ai = true)
    (haf : templateExists db ai.template_id = true)
    (mi : MediaAssetCreate) (hm : validMediaAssetCreate mi = true)
    (li : LayoutPresetCreate) (hl : validLayoutPresetCreate li = true) :
    createThenReadCourse db ci now
      = some (mkCourse db.next_course_id ci now) ∧
    createThenReadEmailTemplate db ti now
      = some (mkEmailTemplate db.next_template_id ti now) ∧
    createThenReadContentBlock db bi now
      = some (mkContentBlock db.next_block_id bi now) ∧
    createThenReadAIGeneration db ai now
      = some (mkAIGeneration db.next_generation_id ai now) ∧
    createThenReadMediaAsset db mi now
      = some (mkMediaAsset db.next_asset_id mi now) ∧
    createThenReadLayoutPreset db li now
      = some (mkLayoutPreset db.next_preset_id li now) :=
  ⟨createCourse_roundtrip db ci now hwf hc,
   createEmailTemplate_roundtrip db ti now hwf ht htf,
   createContentBlock_roundtrip db bi now hwf hbf,
   createAIGeneration_roundtrip db ai now hwf ha haf,
   createMediaAsset_roundtrip db mi now hwf hm,
   createLayoutPreset_roundtrip db li now hwf hl⟩

/-- Concrete instantiation of the roundtrip theorem on the sample store, one
valid payload for each of the six entities. -/
theorem C8_create_then_read_roundtrip_witness :
    createThenReadCourse dbSample ⟨"Calculus", none, "Prof", none, none⟩ 0
      = some (mkCourse dbSample.next_course_id
          ⟨"Calculus", none, "Prof", none, none⟩ 0) ∧
    createThenReadEmailTemplate dbSample
        ⟨"T", none, none, "S", none, none, none⟩ 0
      = some (mkEmailTemplate dbSample.next_template_id
          ⟨"T", none, none, "S", none, none, none⟩ 0) ∧
    createThenReadContentBlock dbSample ⟨1, none, none, none, none⟩ 0
      = some (mkContentBlock dbSample.next_block_id
          ⟨1, none, none, none, none⟩ 0) ∧
    createThenReadAIGeneration dbSample
        ⟨1, "write intro", none, none, none⟩ 0
      = some (mkAIGeneration dbSample.next_generation_id
          ⟨1, "write intro", none, none, none⟩ 0) ∧
    createThenReadMediaAsset dbSample
        ⟨"f.png", "orig.png", "/m/f.png", none, "image/png", none, none,
         none⟩ 0
      = some (mkMediaAsset dbSample.next_asset_id
          ⟨"f.png", "orig.png", "/m/f.png", none, "image/png", none, none,
           none⟩ 0) ∧
    createThenReadLayoutPreset dbSample ⟨"Preset", none, none, none, none⟩ 0
      = some (mkLayoutPreset dbSample.next_preset_id
          ⟨"Preset", none, none, none, none⟩ 0) := by
  exact C8_create_then_read_roundtrip dbSample 0 (by decide)
    ⟨"Calculus", none, "Prof", none, none⟩ (by decide)
    ⟨"T", none, none, "S", none, none, none⟩ (by decide) (by decide)
    ⟨1, none, none, none, none⟩ (by decide)
    ⟨1, "write intro", none, none, none⟩ (by decide) (by decide)
    ⟨"f.png", "orig.png", "/m/f.png", none, "image/png", none, none, none⟩
      (by decide)
    ⟨"Preset", none, none, none, none⟩ (by decide)

/-- C10: an `AIGeneration` recorded from a request — which carries no outcome
fields at all — stores the table defaults for the outcome: `success` true
and `error_message` null. -/
theorem C10_ai_generation_defaults_success (db : DB)
    (req : AIGenerationRequest) (now : Nat) (hwf : wfDB db = true)
    (hv : validAIGenerationRequest req = true)
    (hfk : templateExists db req.template_id = true) :
    (createThenReadAIGeneration db req now).map (fun g => g.success)
      = some true ∧
    (createThenReadAIGeneration db req now).map (fun g => g.error_message)
      = some none := by
  simp only [createAIGeneration_roundtrip db req now hwf hv hfk, Option.map]
  exact ⟨rfl, rfl⟩

/-- Concrete instantiation of the success-default theorem on the sample
store. -/
theorem C10_ai_generation_defaults_success_witness :
    (createThenReadAIGeneration dbSample
        ⟨1, "write intro", none, none, none⟩ 0).map (fun g => g.success)
      = some true ∧
    (createThenReadAIGeneration dbSample
        ⟨1, "write intro", none, none, none⟩ 0).map
        (fun g => g.error_message) = some none := by
  exact C10_ai_generation_defaults_success dbSample
    ⟨1, "write intro", none, none, none⟩ 0 (by decide) (by decide) (by decide)
